import Mathlib

/-
Verification of the bounded-concurrency query/index dispatch engine in
index/index.go (package pgis).

Shallow embedding conventions:
- The store, the feature decoder, the placetype table and the geometry hash
  are external collaborators; their answers enter the embedding as explicit
  oracle arguments (Except values).
- Go float64 coordinate scalars carry no arithmetic in this module (they are
  only serialized), so they are abstracted to Int literals.
- Machine integers stay well inside 64 bits in every statement below, so Int
  and Nat are used directly.
- Goroutines and channels: the terminating count-stage protocol is embedded
  as a function of the two partition results plus the arrival order; the
  fetch-stage channel protocol is embedded operationally as a step relation
  on configurations of channel-action programs (FetchConfig below).
-/

namespace Pgis

/-- Error values surfaced by the client (errors.New / fmt-wrapped messages
and store errors, collapsed to one inductive). -/
inductive Err
  | missingGeometry
  | storeErr (msg : String)
  | scanErr (msg : String)
  | doSomethingHere
  | unknownGeometryFilter
  | cantFindCentroid
  | bboxPanic
  | placetypeErr (msg : String)
  | cantFindRepo (id : String)
  | missingRepo (id : String)
  | hashErr (msg : String)
  | readErr (msg : String)
  | missingPathColumn
  | decodeErr (msg : String)
deriving DecidableEq, Repr

/-- PgisRow: the typed record scanned back from a store row
(index/index.go lines 60-69). -/
structure PgisRow where
  Id : Int
  ParentId : Int
  PlacetypeId : Int
  IsSuperseded : Int
  IsDeprecated : Int
  Meta : String
  Geom : String
  Centroid : String
deriving DecidableEq, Repr

/-- PgisIntersectsOptions (index/index.go lines 78-84). -/
structure PgisIntersectsOptions where
  PlacetypeId : Int
  IsSuperseded : Int
  IsDeprecated : Int
  NumProcesses : Nat
  PerPage : Nat
deriving DecidableEq, Repr

/-- NewDefaultPgisIntersectsOptions (index/index.go lines 86-97). -/
def NewDefaultPgisIntersectsOptions : PgisIntersectsOptions :=
  ⟨-1, 0, 0, 4, 1000⟩

/- ## Connection budget (client.conns, a chan bool of capacity maxconns) -/

/-- dbconn (index/index.go lines 173-178): receives one token from the
conns channel (a permit acquire) and hands back the shared db handle.
No token is ever sent back inside dbconn. When avail = 0 the Go receive
blocks; theorems about dbconn therefore assume 0 < avail. -/
def dbconn (avail : Nat) : Nat := avail - 1

/-- CountIntersects (index/index.go lines 302-325): acquires a permit via
dbconn, runs the COUNT query (its Scan outcome is the oracle argument) and
returns the count or the error. The body contains no send on client.conns,
so the permit is never released on any path. The pair returned is
(result, permits available afterwards). -/
def CountIntersects (scanResult : Except Err Int) (avail : Nat) :
    Except Err Int × Nat :=
  let avail2 := dbconn avail
  match scanResult with
  | .error e => (.error e, avail2)
  | .ok n => (.ok n, avail2)

/-- Permit state after the dbconn acquire in FetchIntersectsAsync
(index/index.go line 334): the function body contains no send on
client.conns, so the permit taken there is never released. -/
def FetchIntersectsAsyncAvailAfter (avail : Nat) : Nat := dbconn avail

/-- Permit state after GetById (index/index.go lines 410-428): dbconn is
called once and no send on client.conns appears in the body. -/
def GetByIdAvailAfter (avail : Nat) : Nat := dbconn avail

/-- Permit state over the store-write block of IndexFeature
(index/index.go lines 718-728): when Debug is false the write path calls
dbconn and then defers a send of one token back onto client.conns, so the
permit count is restored; when Debug is true no permit is touched. -/
def IndexFeatureAvailAfter (debug : Bool) (avail : Nat) : Nat :=
  if debug then avail else dbconn avail + 1

/- ## Count stage of IntersectsFeature (index/index.go lines 203-247) -/

/-- Which partition's single result message (count or error) is selected
first by the collection loop in IntersectsFeature. Each get_count goroutine
sends exactly one result message and only then its done signal, so on two
successes both counts are received, and on any failure the error is
received before the loop can see two done signals. -/
inductive FirstArrival
  | geomFirst
  | centroidFirst
deriving DecidableEq, Repr

/-- The count-collection loop (index/index.go lines 234-247): the first
error received is returned at once; on two successes both partition counts
are reduced to a pair. -/
def countStage (ord : FirstArrival) (rg rc : Except Err Int) :
    Except Err (Int × Int) :=
  match ord, rg, rc with
  | _, .ok g, .ok c => .ok (g, c)
  | .geomFirst, .error e, _ => .error e
  | .geomFirst, .ok _, .error e => .error e
  | .centroidFirst, _, .error e => .error e
  | .centroidFirst, .error e, .ok _ => .error e

/-- Where IntersectsFeature stands after the count stage
(index/index.go lines 187-279):
failed e embeds the source path return nil, err;
doneEmpty embeds falling through both fetch guards with fetching = 0 and
returning the still-empty rows slice with a nil error;
entersFetch embeds taking at least one of the count_geom > 0 /
count_centroid > 0 branches, each of which calls FetchIntersectsAsync. -/
inductive IntersectsOutcome
  | failed (e : Err)
  | doneEmpty
  | entersFetch (countGeom countCentroid : Int)
deriving DecidableEq, Repr

/-- The sequential skeleton of IntersectsFeature up to the fetch stage
(index/index.go lines 187-279): missing geometry fails first; then the
count stage runs; zero totals skip the fetch stage entirely. -/
def IntersectsFeatureOutcome (geomPresent : Bool) (ord : FirstArrival)
    (rg rc : Except Err Int) : IntersectsOutcome :=
  if geomPresent = false then .failed Err.missingGeometry
  else
    match countStage ord rg rc with
    | .error e => .failed e
    | .ok (g, c) =>
      if g > 0 ∨ c > 0 then .entersFetch g c else .doneEmpty

/-- The rows slice the caller receives for the outcomes that return:
failed e corresponds to return nil, err; doneEmpty to return [], nil.
entersFetch has not returned yet, hence none. -/
def outcomeRows : IntersectsOutcome → Option (List PgisRow)
  | .failed _ => none
  | .doneEmpty => some []
  | .entersFetch _ _ => none

/-- Number of FetchIntersectsAsync invocations made by IntersectsFeature
for an outcome (the two guarded calls at index/index.go lines 265-279). -/
def fetchStageCalls : IntersectsOutcome → Nat
  | .entersFetch g c => (if g > 0 then 1 else 0) + (if c > 0 then 1 else 0)
  | _ => 0

/- ## Pagination arithmetic of FetchIntersectsAsync
   (index/index.go lines 341-359 and 401-406) -/

/-- The spawn loop for offset := 0; offset <= count_expected;
offset += limit (index/index.go line 359), as the list of offsets for
which a page-fetch goroutine is launched. Structural fuel recursion; for
1 <= limit a fuel of count + 2 is enough to run the loop to completion. -/
def fetchOffsetsAux : Nat → Nat → Nat → Nat → List Nat
  | 0, _, _, _ => []
  | fuel + 1, count, limit, offset =>
    if offset ≤ count then
      offset :: fetchOffsetsAux fuel count limit (offset + limit)
    else []

/-- All page offsets spawned for one partition fetch. -/
def fetchOffsets (countExpected limit : Nat) : List Nat :=
  fetchOffsetsAux (countExpected + 2) countExpected limit 0

/-- Number of page-fetch goroutines spawned by FetchIntersectsAsync. -/
def pagesSpawned (countExpected limit : Nat) : Nat :=
  (fetchOffsets countExpected limit).length

/-- iters (index/index.go lines 343-348): int(math.Ceil(count/limit)),
the number of fetch_ch completion signals the drain loop waits for.
Exact-rational model of the float64 ceiling. -/
def itersDrained (countExpected limit : Nat) : Nat :=
  (countExpected + limit - 1) / limit

/-- Page-fetch goroutines spawned across the whole intersects query:
FetchIntersectsAsync is only ever reached through entersFetch, once per
positive partition count. -/
def pageTasksSpawned (o : IntersectsOutcome) (limit : Nat) : Nat :=
  match o with
  | .entersFetch g c =>
    (if g > 0 then pagesSpawned g.toNat limit else 0) +
      (if c > 0 then pagesSpawned c.toNat limit else 0)
  | _ => 0

/- ## Feature model and JSON serialization used by IndexFeature
   (index/index.go lines 30-58 and 444-770) -/

/-- Coords ([]float64, index/index.go line 37); scalars abstracted to Int. -/
abbrev Coords := List Int

/-- LinearRing (index/index.go line 39). -/
abbrev LinearRing := List Coords

/-- Polygon (index/index.go line 41). -/
abbrev Polygon := List LinearRing

/-- MultiPolygon (index/index.go line 43). -/
abbrev MultiPolygon := List Polygon

/-- A polygon as returned by feature.GeomToPolygons(): an outer ring and
interior rings, each a list of (lng, lat) points. -/
structure GoPolygon where
  outerRing : List (Int × Int)
  interiorRings : List (List (Int × Int))
deriving DecidableEq, Repr

/-- The decoded feature, as seen through the accessor interface of
geojson.WOFFeature plus the gjson paths the code reads. geomType is ""
when geometry.type is absent or not a string (the ok flag is discarded at
index/index.go line 463); geomString is the serialization of the geometry
member ("" when absent); lblLat/lblLon and geomLat/geomLon are the
properties lbl:latitude, lbl:longitude, geom:latitude, geom:longitude. -/
structure WOFFeature where
  id : Int
  geomType : String
  geomString : String
  polygons : List GoPolygon
  bbox : List Int
  lblLat : Option Int
  lblLon : Option Int
  geomLat : Option Int
  geomLon : Option Int
  placetype : String
  repo : Option String
  parentId : Option Int
  deprecated : Bool
  superseded : Bool
  name : String
  country : Option String
  hierarchy : List (List (String × Int))
  dumps : String
deriving DecidableEq, Repr

/-- json.Marshal of one coordinate pair, encoded as the source builds it:
Coords{lng, lat}. -/
def marshalCoord (c : Int × Int) : String :=
  "[" ++ toString c.1 ++ "," ++ toString c.2 ++ "]"

/-- Comma-joined JSON array of already-serialized items. -/
def marshalArray (items : List String) : String :=
  "[" ++ String.intercalate "," items ++ "]"

/-- json.Marshal of a LinearRing of (lng, lat) points. -/
def marshalRing (r : List (Int × Int)) : String :=
  marshalArray (r.map marshalCoord)

/-- json.Marshal of a Polygon (list of rings). -/
def marshalPoly (p : List (List (Int × Int))) : String :=
  marshalArray (p.map marshalRing)

/-- json.Marshal of MultiPolygon coordinates. -/
def marshalMultiPolyCoords (m : List (List (List (Int × Int)))) : String :=
  marshalArray (m.map marshalPoly)

/-- json.Marshal of GeometryMultiPoly (index/index.go lines 503-509). -/
def marshalGeometryMultiPoly (m : List (List (List (Int × Int)))) : String :=
  "\x7b\"type\":\"MultiPolygon\",\"coordinates\":" ++
    marshalMultiPolyCoords m ++ "\x7d"

/-- json.Marshal of the Point Geometry built from the centroid coordinates
(index/index.go lines 601-614). -/
def marshalGeometryPoint (lng lat : Int) : String :=
  "\x7b\"type\":\"Point\",\"coordinates\":[" ++ toString lng ++ "," ++
    toString lat ++ "]\x7d"

/-- json.Marshal of the bounding-box GeometryPoly
(index/index.go lines 549-570). -/
def marshalGeometryBBoxPoly (swlon swlat nelon nelat : Int) : String :=
  "\x7b\"type\":\"Polygon\",\"coordinates\":" ++
    marshalPoly [[(swlon, swlat), (swlon, nelat), (nelon, nelat),
      (nelon, swlat), (swlon, swlat)]] ++ "\x7d"

/-- Naive JSON string quoting (escape handling is irrelevant to every
claim below; only emptiness and identity of the result matter). -/
def quoteJSON (s : String) : String := "\"" ++ s ++ "\""

/-- json.Marshal of one hierarchy map entry. -/
def marshalHierEntry (h : List (String × Int)) : String :=
  "\x7b" ++
    String.intercalate ","
      (h.map fun kv => quoteJSON kv.1 ++ ":" ++ toString kv.2) ++ "\x7d"

/-- json.Marshal of the Meta struct (index/index.go lines 30-35 and
670-677): wof:name, wof:country, wof:repo, wof:hierarchy. -/
def marshalMeta (name country repo : String)
    (hier : List (List (String × Int))) : String :=
  "\x7b\"wof:name\":" ++ quoteJSON name ++ ",\"wof:country\":" ++
    quoteJSON country ++ ",\"wof:repo\":" ++ quoteJSON repo ++
    ",\"wof:hierarchy\":" ++ marshalArray (hier.map marshalHierEntry) ++
    "\x7d"

/-- The conversion of feature.GeomToPolygons() output into MultiPolygon
coordinates (index/index.go lines 472-501): for each source polygon, the
outer ring followed by the interior rings, points as Coords{lng, lat}. -/
def polyToRings (p : GoPolygon) : List (List (Int × Int)) :=
  p.outerRing :: p.interiorRings

/-- The whole MultiPolygon built in the Polygon branch. -/
def featureMultiPolyCoords (f : WOFFeature) : List (List (List (Int × Int))) :=
  f.polygons.map polyToRings

/-- The client configuration fields read by IndexFeature
(index/index.go lines 120-127): Geometry is the geometry-mode string
("", "bbox", "centroid" or invalid), Debug the dry-run toggle, Verbose the
logging toggle. -/
structure PgisClient where
  Geometry : String
  Debug : Bool
  Verbose : Bool
deriving DecidableEq, Repr

/-- The geometry-mode dispatch of IndexFeature
(index/index.go lines 460-576), producing (str_geom, str_centroid) as they
stand after the dispatch, or the error returned there. In the default mode:
MultiPolygon serializes the geometry member as-is; Polygon rebuilds a
MultiPolygon from GeomToPolygons(); Point stores the geometry member as the
centroid and leaves str_geom empty; any other type returns the
DO SOMETHING HERE error. In bbox mode the first four bbox children are
asserted without an ok check, so a short bbox is a Go panic, embedded as
bboxPanic. In centroid mode both strings stay empty here. Any other mode
string returns the unknown geometry filter error. -/
def geometryDispatch (client : PgisClient) (f : WOFFeature) :
    Except Err (String × String) :=
  if client.Geometry = "" then
    if f.geomType = "MultiPolygon" then .ok (f.geomString, "")
    else if f.geomType = "Polygon" then
      .ok (marshalGeometryMultiPoly (featureMultiPolyCoords f), "")
    else if f.geomType = "Point" then .ok ("", f.geomString)
    else .error Err.doSomethingHere
  else if client.Geometry = "bbox" then
    match f.bbox with
    | swlon :: swlat :: nelon :: nelat :: _ =>
      .ok (marshalGeometryBBoxPoly swlon swlat nelon nelat, "")
    | _ => .error Err.bboxPanic
  else if client.Geometry = "centroid" then .ok ("", "")
  else .error Err.unknownGeometryFilter

/-- The centroid coordinate lookup (index/index.go lines 583-599): the
lbl pair if both parts type-assert, else the geom pair if both parts
type-assert, else none. Returns (lat, lon) in source variable order. -/
def centroidLatLon (f : WOFFeature) : Option (Int × Int) :=
  match f.lblLat, f.lblLon with
  | some lat, some lon => some (lat, lon)
  | _, _ =>
    match f.geomLat, f.geomLon with
    | some lat, some lon => some (lat, lon)
    | _, _ => none

/-- The str_centroid == "" fallback (index/index.go lines 578-615): when
the dispatch left the centroid empty it is derived from the label/derived
coordinates as a marshalled Point geometry, or the item fails with
can't find centroid. -/
def deriveCentroid (f : WOFFeature) (str_centroid : String) :
    Except Err String :=
  if str_centroid = "" then
    match centroidLatLon f with
    | some (lat, lon) => .ok (marshalGeometryPoint lon lat)
    | none => .error Err.cantFindCentroid
  else .ok str_centroid

/-- Everything IndexFeature computes before (and independently of) the
store write: the parameters of the eventual upsert. Field names follow the
source variables (index/index.go lines 444-700). -/
structure PreparedWrite where
  wofid : Int
  parent : Int
  placetype_id : Int
  is_superseded : Int
  is_deprecated : Int
  str_meta : String
  geom_hash : String
  lastmod : String
  str_geom : String
  str_centroid : String
deriving DecidableEq, Repr

/-- The pre-write pipeline of IndexFeature (index/index.go lines 453-700):
geometry dispatch, centroid derivation, placetype resolution (the
placetypes table is the ptLookup oracle, returning pt.Id), the required
wof:repo property, the parent id defaulting to -1, the flag bits, the
Meta blob, and the geometry hash (the hashGeom oracle). Runs for a feature
whose id is not 0. -/
def IndexFeaturePrepare (client : PgisClient)
    (ptLookup : String → Except Err Int)
    (hashGeom : String → Except Err String) (lastmod : String)
    (f : WOFFeature) : Except Err PreparedWrite :=
  match geometryDispatch client f with
  | .error e => .error e
  | .ok (str_geom, c0) =>
    match deriveCentroid f c0 with
    | .error e => .error e
    | .ok str_centroid =>
      match ptLookup f.placetype with
      | .error e => .error e
      | .ok placetype_id =>
        match f.repo with
        | none => .error (Err.cantFindRepo (toString f.id))
        | some repo =>
          if repo = "" then .error (Err.missingRepo (toString f.id))
          else
            let parent := f.parentId.getD (-1)
            let is_superseded : Int := if f.superseded then 1 else 0
            let is_deprecated : Int := if f.deprecated then 1 else 0
            let country := f.country.getD "XX"
            let str_meta := marshalMeta f.name country repo f.hierarchy
            match hashGeom f.dumps with
            | .error e => .error e
            | .ok geom_hash =>
              .ok ⟨f.id, parent, placetype_id, is_superseded,
                is_deprecated, str_meta, geom_hash, lastmod, str_geom,
                str_centroid⟩

/-- The observable outcome of one IndexFeature call: ok/fail carry the
store writes performed (at most one), and processExit embeds the
os.Exit(1) on a failed db.Exec (index/index.go line 757), which kills the
whole process. -/
inductive IndexOutcome
  | ok (writes : List PreparedWrite)
  | fail (e : Err) (writes : List PreparedWrite)
  | processExit (code : Nat)
deriving DecidableEq, Repr

/-- The writes an outcome performed (processExit performed none: the Exec
that failed changed nothing). -/
def outcomeWrites : IndexOutcome → List PreparedWrite
  | .ok w => w
  | .fail _ w => w
  | .processExit _ => []

/-- IndexFeature (index/index.go lines 444-770): a zero id is skipped with
a nil error before anything else is read; otherwise the pre-write pipeline
runs, and when Debug is false the upsert is executed (its store outcome is
the execResult oracle; a store error logs and calls os.Exit(1), success
returns nil having performed the one write). When Debug is true the write
block is skipped entirely and nil is returned. -/
def IndexFeature (client : PgisClient) (ptLookup : String → Except Err Int)
    (hashGeom : String → Except Err String) (lastmod : String)
    (execResult : Except Err Unit) (f : WOFFeature) : IndexOutcome :=
  if f.id = 0 then .ok []
  else
    match IndexFeaturePrepare client ptLookup hashGeom lastmod f with
    | .error e => .fail e []
    | .ok p =>
      if client.Debug = false then
        match execResult with
        | .error _ => .processExit 1
        | .ok _ => .ok [p]
      else .ok []

/- ## The upsert SQL shapes and the store model
   (index/index.go lines 733-751) -/

/-- Which of the three SQL branches is selected by the emptiness tests at
index/index.go lines 735-749. -/
inductive WriteShape
  | geomAndCentroid
  | geomOnly
  | centroidOnly
deriving DecidableEq, Repr

/-- The shape the write block picks for a prepared write; none embeds the
this-should-never-happen fallthrough where sql stays the empty string. -/
def writeShape (p : PreparedWrite) : Option WriteShape :=
  if p.str_geom ≠ "" ∧ p.str_centroid ≠ "" then some .geomAndCentroid
  else if p.str_geom ≠ "" then some .geomOnly
  else if p.str_centroid ≠ "" then some .centroidOnly
  else none

/-- The INSERT target-column list of each SQL branch, transcribed from the
three fmt.Sprintf format strings (index/index.go lines 737, 741, 745).
Note the second branch really names xgeom. -/
def upsertInsertColumns : WriteShape → List String
  | .geomAndCentroid =>
    ["id", "parent_id", "placetype_id", "is_superseded", "is_deprecated",
      "meta", "geom_hash", "lastmod", "geom", "centroid"]
  | .geomOnly =>
    ["id", "parent_id", "placetype_id", "is_superseded", "is_deprecated",
      "meta", "geom_hash", "lastmod", "xgeom", "centroid"]
  | .centroidOnly =>
    ["id", "parent_id", "placetype_id", "is_superseded", "is_deprecated",
      "meta", "geom_hash", "lastmod", "centroid"]

/-- The VALUES expression list of each SQL branch (same format strings):
eight placeholders plus the interpolated ST_GeomFromGeoJSON expressions. -/
def upsertInsertValues : WriteShape → List String
  | .geomAndCentroid =>
    ["$1", "$2", "$3", "$4", "$5", "$6", "$7", "$8", "st_geojson",
      "st_centroid"]
  | .geomOnly =>
    ["$1", "$2", "$3", "$4", "$5", "$6", "$7", "$8", "st_geojson"]
  | .centroidOnly =>
    ["$1", "$2", "$3", "$4", "$5", "$6", "$7", "$8", "st_centroid"]

/-- The columns assigned by the ON CONFLICT(id) DO UPDATE SET clause of
each branch. -/
def upsertUpdateColumns : WriteShape → List String
  | .geomAndCentroid =>
    ["parent_id", "placetype_id", "is_superseded", "is_deprecated", "meta",
      "geom_hash", "lastmod", "geom", "centroid"]
  | .geomOnly =>
    ["parent_id", "placetype_id", "is_superseded", "is_deprecated", "meta",
      "geom_hash", "lastmod", "geom"]
  | .centroidOnly =>
    ["parent_id", "placetype_id", "is_superseded", "is_deprecated", "meta",
      "geom_hash", "lastmod", "centroid"]

/-- One stored table row of whosonfirst, keyed externally by id. The geom
and centroid columns hold the GeoJSON text the corresponding
ST_GeomFromGeoJSON expression was given (geometry parsing is the store
collaborator's concern); none is SQL NULL. -/
structure StoredRow where
  parent_id : Int
  placetype_id : Int
  is_superseded : Int
  is_deprecated : Int
  meta : String
  geom_hash : String
  lastmod : String
  geom : Option String
  centroid : Option String
deriving DecidableEq, Repr

/-- The whosonfirst table as an association list from id to row; the
upsert below keeps at most one entry per id. -/
abbrev Store := List (Int × StoredRow)

/-- Lookup by id. -/
def storeGet (s : Store) (id : Int) : Option StoredRow :=
  (s.find? fun kv => kv.1 == id).map (·.2)

/-- The row described by the INSERT arm of a branch for a prepared write:
the centroid-only branch lists no geom column, so geom is NULL there. -/
def insertRow (p : PreparedWrite) : WriteShape → StoredRow
  | .geomAndCentroid =>
    ⟨p.parent, p.placetype_id, p.is_superseded, p.is_deprecated,
      p.str_meta, p.geom_hash, p.lastmod, some p.str_geom,
      some p.str_centroid⟩
  | .geomOnly =>
    ⟨p.parent, p.placetype_id, p.is_superseded, p.is_deprecated,
      p.str_meta, p.geom_hash, p.lastmod, some p.str_geom, none⟩
  | .centroidOnly =>
    ⟨p.parent, p.placetype_id, p.is_superseded, p.is_deprecated,
      p.str_meta, p.geom_hash, p.lastmod, none, some p.str_centroid⟩

/-- The row after the DO UPDATE arm of a branch: every mutable column the
branch lists is overwritten; a geometry column the branch does not list
keeps its old value. -/
def updateRow (old : StoredRow) (p : PreparedWrite) : WriteShape → StoredRow
  | .geomAndCentroid =>
    ⟨p.parent, p.placetype_id, p.is_superseded, p.is_deprecated,
      p.str_meta, p.geom_hash, p.lastmod, some p.str_geom,
      some p.str_centroid⟩
  | .geomOnly =>
    ⟨p.parent, p.placetype_id, p.is_superseded, p.is_deprecated,
      p.str_meta, p.geom_hash, p.lastmod, some p.str_geom, old.centroid⟩
  | .centroidOnly =>
    ⟨p.parent, p.placetype_id, p.is_superseded, p.is_deprecated,
      p.str_meta, p.geom_hash, p.lastmod, old.geom, some p.str_centroid⟩

/-- Executing the upsert statement of a branch against the store. The
geomOnly statement is rejected by PostgreSQL before any row is touched:
its INSERT lists ten target columns against nine value expressions and
names the nonexistent column xgeom (index/index.go line 741). The other
two branches insert a fresh row or update the existing row in place,
keyed by id. -/
def applyUpsert (shape : WriteShape) (p : PreparedWrite) (s : Store) :
    Except Err Store :=
  if shape = .geomOnly then
    .error (Err.storeErr "INSERT has more target columns than expressions; column xgeom does not exist")
  else
    match storeGet s p.wofid with
    | none => .ok ((p.wofid, insertRow p shape) :: s)
    | some old =>
      .ok (s.map fun kv =>
        if kv.1 == p.wofid then (kv.1, updateRow old p shape) else kv)

/- ## The bulk index pipelines
   (index/index.go lines 772-830, 832-874, 876-920) -/

/-- IndexMetaFile (index/index.go lines 772-830) over the already-read CSV
rows: a row is either a reader error, or the optional value of its path
column. A reader error or a missing path column aborts the pipeline with
that error; otherwise a worker task runs client.IndexFile on
data_root/path and its returned error is discarded (index/index.go line
822: the call's result is not assigned, logged or counted). After the
drain the pipeline returns nil. itemResult is its per-item outcome
oracle. -/
def IndexMetaFile (data_root : String)
    (rows : List (Except Err (Option String)))
    (itemResult : String → Except Err Unit) : Except Err Unit :=
  match rows with
  | [] => .ok ()
  | r :: rest =>
    match r with
    | .error e => .error e
    | .ok none => .error Err.missingPathColumn
    | .ok (some rel_path) =>
      let _ := itemResult (data_root ++ "/" ++ rel_path)
      IndexMetaFile data_root rest itemResult

/-- IndexFileList (index/index.go lines 876-920) over the scanned lines:
each line spawns a task whose client.IndexFile result is discarded
(index/index.go line 911); the pipeline always returns nil. -/
def IndexFileList (lines : List String)
    (itemResult : String → Except Err Unit) : Except Err Unit :=
  match lines with
  | [] => .ok ()
  | path :: rest =>
    let _ := itemResult path
    IndexFileList rest itemResult

/-- The filename filter of IndexDirectory, regexp (backslash-d+)
followed by .geojson at end of name (index/index.go line 834): the name
ends in .geojson and the character before that suffix is a digit. -/
def reWofMatches (fname : String) : Bool :=
  fname.endsWith ".geojson" && (fname.dropRight 8).back.isDigit

/-- filepath.Base, as far as the filter needs it: the last
slash-separated component. -/
def filepathBase (p : String) : String :=
  ((p.splitOn "/").getLast?).getD p

/-- Whether a per-item result is a failure. -/
def isErr : Except Err Unit → Bool
  | .error _ => true
  | .ok _ => false

/-- One crawl-callback visit of IndexDirectory
(index/index.go lines 840-865) threading the (count, ok, errs) tally:
non-matching names are skipped; a matching name is counted, and its
failure or success is tallied (the failure is also logged there). -/
def indexDirStep (itemResult : String → Except Err Unit)
    (acc : Nat × Nat × Nat) (abs_path : String) : Nat × Nat × Nat :=
  if reWofMatches (filepathBase abs_path) then
    match itemResult abs_path with
    | .error _ => (acc.1 + 1, acc.2.1, acc.2.2 + 1)
    | .ok _ => (acc.1 + 1, acc.2.1 + 1, acc.2.2)
  else acc

/-- IndexDirectory (index/index.go lines 832-874): the crawl callback runs
over every delivered path, and the function logs the final
(count, ok, errs) tally and returns nil. The crawler collaborator is
modelled as delivering every path once, in order. -/
def IndexDirectory (items : List String)
    (itemResult : String → Except Err Unit) :
    (Nat × Nat × Nat) × Except Err Unit :=
  (items.foldl (indexDirStep itemResult) (0, 0, 0), .ok ())

/- ## Operational model of the fetch-phase channel protocol
   (index/index.go lines 256-299 and 327-408)

IntersectsFeature calls FetchIntersectsAsync synchronously (line 269, no
go statement). The channels involved are rows_ch, done_ch, err_ch and
fetch_ch, all unbuffered (make with no capacity, lines 207-211, 260, 353),
and throttle_ch with capacity NumProcesses pre-filled with NumProcesses
tokens (lines 350-357). We model each goroutine as its remaining list of
channel actions and let the scheduler pick any enabled Go channel step:
an unbuffered send synchronizing with another goroutine whose next action
is the matching receive, or a buffered throttle operation. -/

/-- The channels of the fetch phase. -/
inductive ChanId
  | rowsCh
  | doneCh
  | errCh
  | fetchCh
  | throttleCh
deriving DecidableEq, Repr

/-- One blocking channel action of a goroutine. -/
inductive Act
  | send (c : ChanId)
  | recv (c : ChanId)
deriving DecidableEq, Repr

/-- Channel capacities: throttle_ch is make(chan bool, NumProcesses) with
the default NumProcesses = 4; every other channel is unbuffered. -/
def chanCap : ChanId → Nat
  | .throttleCh => 4
  | _ => 0

/-- A configuration: the remaining action list of every live goroutine,
and how many tokens sit in the throttle buffer. -/
structure FetchConfig where
  procs : List (List Act)
  throttleBuf : Nat
deriving DecidableEq, Repr

/-- Rendezvous successors for goroutine i whose next action is a send on
the unbuffered channel c: any other goroutine whose next action is the
matching receive advances together with it. -/
def rendezvousTargets (s : FetchConfig) (i : Nat) (c : ChanId)
    (rest : List Act) : List FetchConfig :=
  (List.range s.procs.length).flatMap fun j =>
    if i = j then []
    else
      match s.procs.getD j [] with
      | Act.recv c2 :: restj =>
        if c2 = c then
          [⟨(s.procs.set i rest).set j restj, s.throttleBuf⟩]
        else []
      | _ => []

/-- All configurations one Go scheduler step away: an unbuffered
rendezvous, a send into the non-full throttle buffer, or a receive from
the non-empty throttle buffer. -/
def stepTargets (s : FetchConfig) : List FetchConfig :=
  (List.range s.procs.length).flatMap fun i =>
    match s.procs.getD i [] with
    | [] => []
    | Act.send c :: rest =>
      if c = ChanId.throttleCh then
        if s.throttleBuf < chanCap ChanId.throttleCh then
          [⟨s.procs.set i rest, s.throttleBuf + 1⟩]
        else []
      else rendezvousTargets s i c rest
    | Act.recv c :: rest =>
      if c = ChanId.throttleCh then
        if 0 < s.throttleBuf then
          [⟨s.procs.set i rest, s.throttleBuf - 1⟩]
        else []
      else []

/-- One scheduler step. -/
def FetchStep (s t : FetchConfig) : Prop := t ∈ stepTargets s

/-- The main goroutine inside the synchronous FetchIntersectsAsync call
for count_expected = 1 with the default options (PerPage = 1000, so
iters = 1): drain one fetch_ch completion signal (lines 401-406), then
the deferred send on done_ch (lines 330-332). Only after these two
actions does IntersectsFeature continue towards returning rows. -/
def mainFetchProg : List Act :=
  [Act.recv ChanId.fetchCh, Act.send ChanId.doneCh]

/-- The one spawned page goroutine (offset 0) whose query succeeds with
the single matching row (lines 361-397): take a throttle slot, push the
decoded row onto rows_ch, then the deferred fetch_ch signal and throttle
slot return. -/
def pageTaskProg : List Act :=
  [Act.recv ChanId.throttleCh, Act.send ChanId.rowsCh,
    Act.send ChanId.fetchCh, Act.send ChanId.throttleCh]

/-- The fetch phase as entered for a query whose geometry-partition count
is 1 and centroid-partition count is 0: the throttle buffer holds its four
pre-loaded tokens. -/
def fetchInit : FetchConfig := ⟨[mainFetchProg, pageTaskProg], 4⟩

/-- The only configuration reachable from fetchInit in one step: the page
goroutine has taken a throttle slot and now blocks sending the row. -/
def fetchStuck : FetchConfig :=
  ⟨[mainFetchProg,
    [Act.send ChanId.rowsCh, Act.send ChanId.fetchCh,
      Act.send ChanId.throttleCh]], 3⟩

/- ## Concrete fixtures used by witnesses and counterexamples -/

/-- A client in the default geometry mode with Debug and Verbose off. -/
def clientDefaultMode : PgisClient := ⟨"", false, false⟩

/-- A placetype table oracle that resolves every name. -/
def ptLookupW : String → Except Err Int := fun _ => .ok 459

/-- A geometry-hash oracle that always succeeds. -/
def hashGeomW : String → Except Err String := fun _ => .ok "d41d8cd9"

/-- A well-formed Point-shaped feature. -/
def fPointW : WOFFeature :=
  ⟨85922583, "Point", "\x7b\"type\":\"Point\",\"coordinates\":[-122,37]\x7d",
    [], [], none, none, none, none, "neighbourhood",
    some "whosonfirst-data", some 85633793, false, false, "Noe Valley",
    some "US", [[("neighbourhood_id", 85922583)]], "body"⟩

/-- A first prepared write for id 1 with empty geometry. -/
def qW1 : PreparedWrite := ⟨1, -1, 459, 0, 0, "meta1", "hash1", "t1", "", "c1"⟩

/-- A second prepared write for id 1 with empty geometry and fresh values
for every mutable column. -/
def qW2 : PreparedWrite := ⟨1, 99, 460, 1, 1, "meta2", "hash2", "t2", "", "c2"⟩

/- ## Helper lemmas -/

/-- A string with a nonempty left part is nonempty. -/
theorem append_ne_empty (a b : String) (ha : a.length ≠ 0) :
    (a ++ b) ≠ "" := by
  intro h
  have h2 := congrArg String.length h
  rw [String.length_append] at h2
  have h4 : ("" : String).length = 0 := rfl
  omega

/-- The marshalled centroid Point geometry is never the empty string. -/
theorem marshalGeometryPoint_ne_empty (lng lat : Int) :
    marshalGeometryPoint lng lat ≠ "" := by
  unfold marshalGeometryPoint
  intro h
  have h2 := congrArg String.length h
  rw [String.length_append, String.length_append, String.length_append,
    String.length_append] at h2
  have h3 : ("\x7b\"type\":\"Point\",\"coordinates\":[" : String).length ≠ 0 := by
    decide
  have h4 : ("" : String).length = 0 := rfl
  omega

/-- The marshalled MultiPolygon geometry is never the empty string. -/
theorem marshalGeometryMultiPoly_ne_empty
    (m : List (List (List (Int × Int)))) :
    marshalGeometryMultiPoly m ≠ "" := by
  unfold marshalGeometryMultiPoly
  intro h
  have h2 := congrArg String.length h
  rw [String.length_append, String.length_append] at h2
  have h3 :
      ("\x7b\"type\":\"MultiPolygon\",\"coordinates\":" : String).length ≠ 0 := by
    decide
  have h4 : ("" : String).length = 0 := rfl
  omega

/-- A geometry-dispatch error is the pipeline's error. -/
theorem prepare_dispatch_error (client : PgisClient)
    (ptLookup : String → Except Err Int)
    (hashGeom : String → Except Err String) (lastmod : String)
    (f : WOFFeature) (e : Err)
    (hd : geometryDispatch client f = .error e) :
    IndexFeaturePrepare client ptLookup hashGeom lastmod f = .error e := by
  unfold IndexFeaturePrepare
  rw [hd]

/-- A successful pipeline carries the dispatched str_geom unchanged. -/
theorem prepare_str_geom (client : PgisClient)
    (ptLookup : String → Except Err Int)
    (hashGeom : String → Except Err String) (lastmod : String)
    (f : WOFFeature) (g0 c0 : String) (p : PreparedWrite)
    (hd : geometryDispatch client f = .ok (g0, c0))
    (hprep : IndexFeaturePrepare client ptLookup hashGeom lastmod f = .ok p) :
    p.str_geom = g0 := by
  unfold IndexFeaturePrepare at hprep
  simp only [hd] at hprep
  cases hc : deriveCentroid f c0 with
  | error e => rw [hc] at hprep; exact absurd hprep (by simp)
  | ok str_c =>
    simp only [hc] at hprep
    cases hpt : ptLookup f.placetype with
    | error e => rw [hpt] at hprep; exact absurd hprep (by simp)
    | ok ptid =>
      simp only [hpt] at hprep
      cases hrepo : f.repo with
      | none => rw [hrepo] at hprep; exact absurd hprep (by simp)
      | some repo =>
        simp only [hrepo] at hprep
        by_cases hre : repo = ""
        · rw [if_pos hre] at hprep; exact absurd hprep (by simp)
        · rw [if_neg hre] at hprep
          cases hh : hashGeom f.dumps with
          | error e => rw [hh] at hprep; exact absurd hprep (by simp)
          | ok gh =>
            simp only [hh] at hprep
            have hp := (Except.ok.injEq _ _).mp hprep
            rw [← hp]

/-- A successful pipeline always ends with a nonempty str_centroid: either
the dispatch filled it with the serialized Point geometry, or the fallback
derived it as a marshalled Point from the label/derived coordinates. -/
theorem prepare_centroid_ne_empty (client : PgisClient)
    (ptLookup : String → Except Err Int)
    (hashGeom : String → Except Err String) (lastmod : String)
    (f : WOFFeature) (p : PreparedWrite)
    (hprep : IndexFeaturePrepare client ptLookup hashGeom lastmod f = .ok p) :
    p.str_centroid ≠ "" := by
  unfold IndexFeaturePrepare at hprep
  cases hd : geometryDispatch client f with
  | error e => rw [hd] at hprep; exact absurd hprep (by simp)
  | ok gc =>
    obtain ⟨g0, c0⟩ := gc
    simp only [hd] at hprep
    cases hc : deriveCentroid f c0 with
    | error e => rw [hc] at hprep; exact absurd hprep (by simp)
    | ok str_c =>
      simp only [hc] at hprep
      have hstr : str_c ≠ "" := by
        unfold deriveCentroid at hc
        by_cases h0 : c0 = ""
        · rw [if_pos h0] at hc
          cases hll : centroidLatLon f with
          | none => rw [hll] at hc; exact absurd hc (by simp)
          | some latlon =>
            obtain ⟨lat, lon⟩ := latlon
            rw [hll] at hc
            have heq : marshalGeometryPoint lon lat = str_c := by
              injection hc
            exact heq ▸ marshalGeometryPoint_ne_empty lon lat
        · rw [if_neg h0] at hc
          have heq : c0 = str_c := by injection hc
          exact heq ▸ h0
      cases hpt : ptLookup f.placetype with
      | error e => rw [hpt] at hprep; exact absurd hprep (by simp)
      | ok ptid =>
        simp only [hpt] at hprep
        cases hrepo : f.repo with
        | none => rw [hrepo] at hprep; exact absurd hprep (by simp)
        | some repo =>
          simp only [hrepo] at hprep
          by_cases hre : repo = ""
          · rw [if_pos hre] at hprep; exact absurd hprep (by simp)
          · rw [if_neg hre] at hprep
            cases hh : hashGeom f.dumps with
            | error e => rw [hh] at hprep; exact absurd hprep (by simp)
            | ok gh =>
              simp only [hh] at hprep
              have hp := (Except.ok.injEq _ _).mp hprep
              rw [← hp]
              exact hstr

/-- Closed form of the spawn loop: with a positive page size, offsets
0, limit, 2·limit, … ≤ count make count / limit + 1 page tasks. -/
theorem fetchOffsetsAux_length (limit : Nat) (hl : 1 ≤ limit) :
    ∀ (fuel count offset : Nat), count + 1 - offset ≤ fuel →
      (fetchOffsetsAux fuel count limit offset).length =
        if offset ≤ count then (count - offset) / limit + 1 else 0 := by
  intro fuel
  induction fuel with
  | zero =>
    intro count offset hb
    have : ¬ offset ≤ count := by omega
    simp [fetchOffsetsAux, this]
  | succ n ih =>
    intro count offset hb
    by_cases hoc : offset ≤ count
    · rw [if_pos hoc]
      unfold fetchOffsetsAux
      rw [if_pos hoc]
      simp only [List.length_cons]
      rw [ih count (offset + limit) (by omega)]
      by_cases h2 : offset + limit ≤ count
      · rw [if_pos h2]
        have hd : (count - offset) / limit = (count - offset - limit) / limit + 1 :=
          Nat.div_eq_sub_div (by omega) (by omega)
        have hsub : count - offset - limit = count - (offset + limit) := by omega
        rw [hsub] at hd
        omega
      · rw [if_neg h2]
        have hlt : count - offset < limit := by omega
        rw [Nat.div_eq_of_lt hlt]
    · rw [if_neg hoc]
      unfold fetchOffsetsAux
      rw [if_neg hoc]
      rfl

/-- The spawn loop launches count / limit + 1 page-fetch goroutines,
one more than ceil(count / limit) whenever limit divides count. -/
theorem pagesSpawned_eq (count limit : Nat) (hl : 1 ≤ limit) :
    pagesSpawned count limit = count / limit + 1 := by
  unfold pagesSpawned fetchOffsets
  rw [fetchOffsetsAux_length limit hl (count + 2) count 0 (by omega)]
  simp

/-- The errs component of the IndexDirectory tally counts exactly the
matching items whose indexing failed. -/
theorem indexDirectory_foldl (o : String → Except Err Unit) :
    ∀ (items : List String) (acc : Nat × Nat × Nat),
      (items.foldl (indexDirStep o) acc).2.2 =
        acc.2.2 +
          (items.filter fun it =>
            reWofMatches (filepathBase it) && isErr (o it)).length := by
  intro items
  induction items with
  | nil => intro acc; simp
  | cons x xs ih =>
    intro acc
    rw [List.foldl_cons, ih]
    rw [List.filter_cons]
    by_cases hm : reWofMatches (filepathBase x)
    · cases ho : o x with
      | error e =>
        have hs : indexDirStep o acc x = (acc.1 + 1, acc.2.1, acc.2.2 + 1) := by
          unfold indexDirStep; rw [if_pos hm, ho]
        rw [hs]
        simp [hm, ho, isErr]
        omega
      | ok u =>
        have hs : indexDirStep o acc x = (acc.1 + 1, acc.2.1 + 1, acc.2.2) := by
          unfold indexDirStep; rw [if_pos hm, ho]
        rw [hs]
        simp [hm, ho, isErr]
    · have hs : indexDirStep o acc x = acc := by
        unfold indexDirStep; rw [if_neg hm]
      rw [hs]
      simp [hm]

/- ## Claim theorems -/

/-- C1: the claim says a successful count stage with a positive total is
followed by page fetches whose rows IntersectsFeature returns in full with
a nil error. In the source, FetchIntersectsAsync is invoked synchronously
(index/index.go line 269), so for a query whose geometry-partition count
is 1 (centroid 0, default options, the page query returning the one
matching row) every schedule of the channel protocol gets stuck: the page
goroutine blocks sending the row on the unbuffered rows_ch whose receiver
only runs after FetchIntersectsAsync returns, and the main goroutine
blocks on fetch_ch (and would next block on the deferred unbuffered
done_ch send, whose only receiver is itself, later). This theorem: in
every configuration reachable from the entry of the fetch phase, the main
goroutine still has pending channel actions, so IntersectsFeature never
returns at all — against the claim's complete-list-and-nil-error
contract. -/
theorem intersectsFeature_fetch_deadlock :
    ∀ s, Relation.ReflTransGen FetchStep fetchInit s →
      s.procs.getD 0 [] ≠ [] := by
  have inv : ∀ s, Relation.ReflTransGen FetchStep fetchInit s →
      s = fetchInit ∨ s = fetchStuck := by
    intro s h
    induction h with
    | refl => exact Or.inl rfl
    | tail hr hstep ih =>
      rcases ih with h1 | h1
      · subst h1
        have he : stepTargets fetchInit = [fetchStuck] := by decide
        have hm : _ ∈ stepTargets fetchInit := hstep
        rw [he] at hm
        exact Or.inr (List.mem_singleton.mp hm)
      · subst h1
        have he : stepTargets fetchStuck = ([] : List FetchConfig) := by decide
        have hm : _ ∈ stepTargets fetchStuck := hstep
        rw [he] at hm
        exact absurd hm (List.not_mem_nil _)
  intro s h
  rcases inv s h with h1 | h1 <;> subst h1 <;> decide

/-- C1 witness: the deadlock theorem applied at the initial fetch-phase
configuration itself. -/
theorem intersectsFeature_fetch_deadlock_witness :
    fetchInit.procs.getD 0 [] ≠ [] :=
  intersectsFeature_fetch_deadlock fetchInit Relation.ReflTransGen.refl

/-- C2: the claim says the fetch stage spawns exactly ceil(N/P) page
tasks and drains that many completion signals. The spawn loop runs
offset = 0, P, …, ≤ N, so at N = 5, P = 5 it spawns the two offsets 0
and 5 while the drain loop waits for ceil(5/5) = 1 signal: one spawned
task's completion signal is never drained. -/
theorem fetch_spawn_drain_mismatch :
    fetchOffsets 5 5 = [0, 5] ∧ pagesSpawned 5 5 = 2 ∧
      itersDrained 5 5 = 1 := by
  decide

/-- C3: the claim says every permit-acquiring operation (count, page
fetch, get-by-id, index, prune) releases exactly one permit when it
finishes. In the source only the IndexFeature write block and the Prune
delete task release (via defer); CountIntersects, FetchIntersectsAsync
and GetById acquire through dbconn and never send the token back, so each
completed operation leaves the pool one permit short forever. -/
theorem connection_permit_leak (r : Except Err Int) (avail : Nat)
    (h : 0 < avail) :
    (CountIntersects r avail).2 = avail - 1 ∧
    FetchIntersectsAsyncAvailAfter avail = avail - 1 ∧
    GetByIdAvailAfter avail = avail - 1 ∧
    avail - 1 ≠ avail := by
  refine ⟨?_, rfl, rfl, by omega⟩
  cases r <;> rfl

/-- C3 witness: with the default budget of 10 permits, one successful
count leaves 9. -/
theorem connection_permit_leak_witness :
    (CountIntersects (.ok 3) 10).2 = 9 ∧
    FetchIntersectsAsyncAvailAfter 10 = 9 ∧
    GetByIdAvailAfter 10 = 9 ∧ (9 : Nat) ≠ 10 := by
  simpa using connection_permit_leak (.ok 3) 10 (by decide)

/-- C4: when either partition's count operation errors (and the other
succeeds), IntersectsFeature returns exactly that error with a nil rows
slice, calls FetchIntersectsAsync for neither partition, and spawns no
page-fetch goroutine — for either arrival order of the two count
results. -/
theorem intersects_count_error_fail_fast (ord : FirstArrival)
    (rg rc : Except Err Int) (e : Err) (limit : Nat)
    (h : (rg = .error e ∧ ∃ n, rc = .ok n) ∨
      (rc = .error e ∧ ∃ n, rg = .ok n)) :
    IntersectsFeatureOutcome true ord rg rc = .failed e ∧
    outcomeRows (IntersectsFeatureOutcome true ord rg rc) = none ∧
    fetchStageCalls (IntersectsFeatureOutcome true ord rg rc) = 0 ∧
    pageTasksSpawned (IntersectsFeatureOutcome true ord rg rc) limit = 0 := by
  rcases h with ⟨hg, n, hc⟩ | ⟨hc, n, hg⟩ <;> subst hg <;> subst hc <;>
    cases ord <;> exact ⟨rfl, rfl, rfl, rfl⟩

/-- C4 witness: a failing geometry-partition count with a successful
centroid-partition count of 7. -/
theorem intersects_count_error_fail_fast_witness :
    IntersectsFeatureOutcome true FirstArrival.geomFirst
        (.error (Err.storeErr "boom")) (.ok 7) =
      .failed (Err.storeErr "boom") ∧
    outcomeRows (IntersectsFeatureOutcome true FirstArrival.geomFirst
        (.error (Err.storeErr "boom")) (.ok 7)) = none ∧
    fetchStageCalls (IntersectsFeatureOutcome true FirstArrival.geomFirst
        (.error (Err.storeErr "boom")) (.ok 7)) = 0 ∧
    pageTasksSpawned (IntersectsFeatureOutcome true FirstArrival.geomFirst
        (.error (Err.storeErr "boom")) (.ok 7)) 1000 = 0 :=
  intersects_count_error_fail_fast FirstArrival.geomFirst _ _ _ 1000
    (Or.inl ⟨rfl, 7, rfl⟩)

/-- C5: when both partition counts are zero, IntersectsFeature returns
the empty rows slice with a nil error, calls FetchIntersectsAsync for
neither partition, and spawns no page-fetch goroutine. -/
theorem intersects_zero_counts_empty (ord : FirstArrival) (limit : Nat) :
    IntersectsFeatureOutcome true ord (Except.ok 0) (Except.ok 0) =
      IntersectsOutcome.doneEmpty ∧
    outcomeRows (IntersectsFeatureOutcome true ord (Except.ok 0)
      (Except.ok 0)) = some [] ∧
    fetchStageCalls (IntersectsFeatureOutcome true ord (Except.ok 0)
      (Except.ok 0)) = 0 ∧
    pageTasksSpawned (IntersectsFeatureOutcome true ord (Except.ok 0)
      (Except.ok 0)) limit = 0 := by
  cases ord <;> exact ⟨rfl, rfl, rfl, rfl⟩

/-- C6 counterexample: the claim says every per-item indexing failure in
the bulk pipelines is logged and counted and that the pipelines produce a
success/failure tally. In the meta-file path a failing item leaves no
trace at all: the pipeline returns a bare nil with no tally (the
IndexFile result is discarded at index/index.go line 822). And a store
error during an item's upsert is not isolated: IndexFeature calls
os.Exit(1) (index/index.go line 757), killing the whole pipeline. -/
theorem indexMetaFile_failure_not_counted :
    IndexMetaFile "/usr/local/data"
      [Except.ok (some "859/225/83/85922583.geojson")]
      (fun _ => .error (Err.decodeErr "bad record")) = .ok () ∧
    IndexFeature clientDefaultMode ptLookupW hashGeomW "t0"
      (.error (Err.storeErr "down")) fPointW = .processExit 1 :=
  ⟨rfl, rfl⟩

/-- C6 amended: per-item failures in the meta-file and file-list paths do
not abort the pipeline or other items, but are silently discarded — the
pipeline result is independent of every item outcome and is a bare nil,
not a tally; only the directory path counts failures (its errs tally is
exactly the number of matching items that failed, and it too returns
nil); and a store-execution error inside IndexFeature terminates the
whole process via os.Exit(1) instead of being isolated. -/
theorem bulk_index_isolation_amended :
    (∀ (root : String) (rows : List (Except Err (Option String)))
        (o1 o2 : String → Except Err Unit),
      IndexMetaFile root rows o1 = IndexMetaFile root rows o2) ∧
    (∀ (lines : List String) (o : String → Except Err Unit),
      IndexFileList lines o = .ok ()) ∧
    (∀ (items : List String) (o : String → Except Err Unit),
      (IndexDirectory items o).1.2.2 =
        (items.filter fun it =>
          reWofMatches (filepathBase it) && isErr (o it)).length ∧
      (IndexDirectory items o).2 = .ok ()) ∧
    (∀ (client : PgisClient) (ptLookup : String → Except Err Int)
        (hashGeom : String → Except Err String) (lastmod : String)
        (p : PreparedWrite) (f : WOFFeature) (e : Err),
      client.Debug = false → f.id ≠ 0 →
      IndexFeaturePrepare client ptLookup hashGeom lastmod f = .ok p →
      IndexFeature client ptLookup hashGeom lastmod (.error e) f =
        .processExit 1) := by
  refine ⟨?_, ?_, ?_, ?_⟩
  · intro root rows o1 o2
    induction rows with
    | nil => rfl
    | cons r rest ih =>
      cases r with
      | error e => rfl
      | ok po =>
        cases po with
        | none => rfl
        | some pth => simp only [IndexMetaFile]; exact ih
  · intro lines o
    induction lines with
    | nil => rfl
    | cons p rest ih => simp only [IndexFileList]; exact ih
  · intro items o
    refine ⟨?_, rfl⟩
    have h := indexDirectory_foldl o items (0, 0, 0)
    simpa [IndexDirectory] using h
  · intro client ptLookup hashGeom lastmod p f e hdbg hid hprep
    unfold IndexFeature
    rw [if_neg hid, hprep, hdbg]
    rfl

/-- C6 amended witness: a store error on a concrete well-formed feature
exits the process. -/
theorem bulk_index_isolation_amended_witness :
    IndexFeature clientDefaultMode ptLookupW hashGeomW "t1"
      (.error (Err.storeErr "duplicate key")) fPointW = .processExit 1 :=
  bulk_index_isolation_amended.2.2.2 clientDefaultMode ptLookupW hashGeomW
    "t1" _ fPointW (Err.storeErr "duplicate key") rfl (by decide) rfl

/-- C7: under the default geometry mode, a successful pipeline for a
Point-shaped feature yields an empty str_geom and a nonempty
str_centroid; for a Polygon- or MultiPolygon-shaped feature (whose
geometry member serializes nonempty) it yields a nonempty str_geom and a
nonempty derived str_centroid; and for any other geometry type
IndexFeature returns the DO SOMETHING HERE error having performed no
store write. -/
theorem indexFeature_geometry_dispatch (client : PgisClient)
    (ptLookup : String → Except Err Int)
    (hashGeom : String → Except Err String) (lastmod : String)
    (f : WOFFeature) (hmode : client.Geometry = "") :
    (∀ p, f.geomType = "Point" →
      IndexFeaturePrepare client ptLookup hashGeom lastmod f = .ok p →
      p.str_geom = "" ∧ p.str_centroid ≠ "") ∧
    (∀ p, (f.geomType = "Polygon" ∨ f.geomType = "MultiPolygon") →
      f.geomString ≠ "" →
      IndexFeaturePrepare client ptLookup hashGeom lastmod f = .ok p →
      p.str_geom ≠ "" ∧ p.str_centroid ≠ "") ∧
    (f.geomType ≠ "Point" → f.geomType ≠ "Polygon" →
      f.geomType ≠ "MultiPolygon" → f.id ≠ 0 →
      ∀ execResult,
        IndexFeature client ptLookup hashGeom lastmod execResult f =
          .fail Err.doSomethingHere []) := by
  refine ⟨?_, ?_, ?_⟩
  · intro p hty hprep
    have hd : geometryDispatch client f = .ok ("", f.geomString) := by
      unfold geometryDispatch
      rw [hmode, hty]
      simp
    exact ⟨prepare_str_geom client ptLookup hashGeom lastmod f _ _ p hd hprep,
      prepare_centroid_ne_empty client ptLookup hashGeom lastmod f p hprep⟩
  · intro p hty hgs hprep
    rcases hty with hty | hty
    · have hd : geometryDispatch client f =
          .ok (marshalGeometryMultiPoly (featureMultiPolyCoords f), "") := by
        unfold geometryDispatch
        rw [hmode, hty]
        simp
      have h1 := prepare_str_geom client ptLookup hashGeom lastmod f _ _ p
        hd hprep
      rw [h1]
      exact ⟨marshalGeometryMultiPoly_ne_empty _,
        prepare_centroid_ne_empty client ptLookup hashGeom lastmod f p hprep⟩
    · have hd : geometryDispatch client f = .ok (f.geomString, "") := by
        unfold geometryDispatch
        rw [hmode, hty]
        simp
      have h1 := prepare_str_geom client ptLookup hashGeom lastmod f _ _ p
        hd hprep
      rw [h1]
      exact ⟨hgs,
        prepare_centroid_ne_empty client ptLookup hashGeom lastmod f p hprep⟩
  · intro h1 h2 h3 hid execResult
    have hd : geometryDispatch client f = .error Err.doSomethingHere := by
      unfold geometryDispatch
      rw [hmode, if_pos rfl, if_neg h3, if_neg h2, if_neg h1]
    have hp := prepare_dispatch_error client ptLookup hashGeom lastmod f _ hd
    unfold IndexFeature
    rw [if_neg hid, hp]

/-- C7 witness: the Point part applied to a concrete well-formed
Point-shaped feature. -/
theorem indexFeature_geometry_dispatch_witness :
    ∃ p, IndexFeaturePrepare clientDefaultMode ptLookupW hashGeomW "t0"
        fPointW = .ok p ∧ p.str_geom = "" ∧ p.str_centroid ≠ "" :=
  ⟨_, rfl,
    (indexFeature_geometry_dispatch clientDefaultMode ptLookupW hashGeomW
      "t0" fPointW rfl).1 _ rfl rfl⟩

/-- C8 counterexample: the claim says the upsert is a single
insert-or-replace keyed by id in each of the three write shapes. The
geometry-only statement (index/index.go line 741) lists ten INSERT target
columns — among them the nonexistent column xgeom, instead of the geom
column the other branches use — against nine value expressions, so the
store rejects it before touching any row: that shape is not a working
insert-or-replace. -/
theorem upsert_geom_only_sql_malformed :
    (upsertInsertColumns WriteShape.geomOnly).length = 10 ∧
    (upsertInsertValues WriteShape.geomOnly).length = 9 ∧
    "xgeom" ∈ upsertInsertColumns WriteShape.geomOnly ∧
    "xgeom" ∉ upsertInsertColumns WriteShape.geomAndCentroid ∧
    applyUpsert WriteShape.geomOnly qW1 [] =
      .error (Err.storeErr
        "INSERT has more target columns than expressions; column xgeom does not exist") := by
  refine ⟨rfl, rfl, by decide, by decide, rfl⟩

/-- C8 amended: every write the pipeline produces has a nonempty
str_centroid, so the malformed geometry-only shape (and the empty-sql
fallthrough) is unreachable; and for the two reachable shapes
(geometry-and-centroid, centroid-only), indexing the same id twice into a
store with no prior record for it leaves exactly one stored record whose
every column carries the second write's values. -/
theorem upsert_idempotent_reachable_shapes :
    (∀ (client : PgisClient) (ptLookup : String → Except Err Int)
        (hashGeom : String → Except Err String) (lastmod : String)
        (f : WOFFeature) (p : PreparedWrite),
      IndexFeaturePrepare client ptLookup hashGeom lastmod f = .ok p →
      writeShape p ≠ some WriteShape.geomOnly ∧ writeShape p ≠ none) ∧
    (∀ (shape : WriteShape) (p1 p2 : PreparedWrite) (s0 : Store),
      shape ≠ WriteShape.geomOnly → p1.wofid = p2.wofid →
      storeGet s0 p1.wofid = none →
      ∃ s1 s2, applyUpsert shape p1 s0 = .ok s1 ∧
        applyUpsert shape p2 s1 = .ok s2 ∧
        storeGet s2 p2.wofid = some (insertRow p2 shape) ∧
        (s2.filter fun kv => kv.1 == p2.wofid).length = 1) := by
  constructor
  · intro client ptLookup hashGeom lastmod f p hprep
    have hcent := prepare_centroid_ne_empty client ptLookup hashGeom lastmod
      f p hprep
    by_cases hg : p.str_geom = "" <;> simp [writeShape, hg, hcent]
  · intro shape p1 p2 s0 hsh hid h0
    have hall : ∀ kv ∈ s0, (kv.1 == p2.wofid) = false := by
      intro kv hkv
      have hf : s0.find? (fun kv => kv.1 == p1.wofid) = none := by
        unfold storeGet at h0
        exact Option.map_eq_none.mp h0
      have := List.find?_eq_none.mp hf kv hkv
      rw [← hid]
      simpa using this
    have hupd : updateRow (insertRow p1 shape) p2 shape =
        insertRow p2 shape := by
      cases shape with
      | geomAndCentroid => rfl
      | geomOnly => exact absurd rfl hsh
      | centroidOnly => rfl
    have h1 : applyUpsert shape p1 s0 =
        .ok ((p1.wofid, insertRow p1 shape) :: s0) := by
      unfold applyUpsert
      rw [if_neg hsh, h0]
    have hmap : ((p1.wofid, insertRow p1 shape) :: s0).map
        (fun kv => if kv.1 == p2.wofid then
          (kv.1, updateRow (insertRow p1 shape) p2 shape) else kv) =
        (p1.wofid, insertRow p2 shape) :: s0 := by
      rw [List.map_cons]
      congr 1
      · simp [hid, hupd]
      · calc s0.map (fun kv => if kv.1 == p2.wofid then
            (kv.1, updateRow (insertRow p1 shape) p2 shape) else kv) =
            s0.map id := List.map_congr_left (fun kv hkv => by
              rw [hall kv hkv]; rfl)
          _ = s0 := List.map_id s0
    have h2 : applyUpsert shape p2 ((p1.wofid, insertRow p1 shape) :: s0) =
        .ok ((p1.wofid, insertRow p2 shape) :: s0) := by
      unfold applyUpsert
      rw [if_neg hsh]
      have hget : storeGet ((p1.wofid, insertRow p1 shape) :: s0) p2.wofid =
          some (insertRow p1 shape) := by
        unfold storeGet
        rw [List.find?_cons_of_pos _ (by simp [hid])]
        rfl
      rw [hget]
      exact congrArg Except.ok hmap
    refine ⟨(p1.wofid, insertRow p1 shape) :: s0,
      (p1.wofid, insertRow p2 shape) :: s0, h1, h2, ?_, ?_⟩
    · unfold storeGet
      rw [List.find?_cons_of_pos _ (by simp [hid])]
      rfl
    · rw [List.filter_cons]
      have hhd : (((p1.wofid, insertRow p2 shape) : Int × StoredRow).1 ==
          p2.wofid) = true := by simp [hid]
      rw [hhd]
      simp only [if_true]
      have hnil : s0.filter (fun kv => kv.1 == p2.wofid) = [] :=
        List.filter_eq_nil_iff.mpr (fun kv hkv => by simp [hall kv hkv])
      rw [hnil]
      rfl

/-- C8 amended witness: a concrete Point feature prepares into a
non-geomOnly shape, and two concrete centroid-only writes of id 1 leave
exactly one record carrying the second write's values. -/
theorem upsert_idempotent_reachable_shapes_witness :
    (∃ p, IndexFeaturePrepare clientDefaultMode ptLookupW hashGeomW "t0"
        fPointW = .ok p ∧ writeShape p ≠ some WriteShape.geomOnly ∧
        writeShape p ≠ none) ∧
    (∃ s1 s2, applyUpsert WriteShape.centroidOnly qW1 [] = .ok s1 ∧
      applyUpsert WriteShape.centroidOnly qW2 s1 = .ok s2 ∧
      storeGet s2 qW2.wofid = some (insertRow qW2 WriteShape.centroidOnly) ∧
      (s2.filter fun kv => kv.1 == qW2.wofid).length = 1) :=
  ⟨⟨_, rfl, upsert_idempotent_reachable_shapes.1 clientDefaultMode ptLookupW
      hashGeomW "t0" fPointW _ rfl⟩,
    upsert_idempotent_reachable_shapes.2 WriteShape.centroidOnly qW1 qW2 []
      (by decide) rfl rfl⟩

/-- C9: with the Debug (dry-run) toggle set, IndexFeature performs no
store write for any feature and any collaborator outcome, and for a
feature whose pre-write pipeline succeeds it returns nil — every step up
to the write still runs, only the write block is skipped. -/
theorem indexFeature_debug_dry_run (client : PgisClient)
    (ptLookup : String → Except Err Int)
    (hashGeom : String → Except Err String) (lastmod : String)
    (execResult : Except Err Unit) (f : WOFFeature)
    (hdbg : client.Debug = true) :
    outcomeWrites (IndexFeature client ptLookup hashGeom lastmod execResult
      f) = [] ∧
    (∀ p, IndexFeaturePrepare client ptLookup hashGeom lastmod f = .ok p →
      IndexFeature client ptLookup hashGeom lastmod execResult f =
        .ok []) := by
  constructor
  · unfold IndexFeature
    by_cases hid : f.id = 0
    · rw [if_pos hid]; rfl
    · rw [if_neg hid]
      cases hprep : IndexFeaturePrepare client ptLookup hashGeom lastmod f with
      | error e => rfl
      | ok p => rw [hdbg]; rfl
  · intro p hprep
    unfold IndexFeature
    by_cases hid : f.id = 0
    · rw [if_pos hid]
    · rw [if_neg hid, hprep, hdbg]
      rfl

/-- C9 witness: the dry run on a concrete well-formed feature with a
store that would reject the write still returns nil with no write. -/
theorem indexFeature_debug_dry_run_witness :
    IndexFeature ⟨"", true, true⟩ ptLookupW hashGeomW "t0"
      (.error (Err.storeErr "down")) fPointW = .ok [] :=
  (indexFeature_debug_dry_run ⟨"", true, true⟩ ptLookupW hashGeomW "t0"
    (.error (Err.storeErr "down")) fPointW rfl).2 _ rfl

/-- C10: a feature whose id is 0 is skipped before anything else is read:
IndexFeature returns nil with no store write for every client
configuration, collaborator oracle and remaining field content — so no
geometry, placetype, repo or centroid validation happens either. -/
theorem indexFeature_zero_id_skipped (client : PgisClient)
    (ptLookup : String → Except Err Int)
    (hashGeom : String → Except Err String) (lastmod : String)
    (execResult : Except Err Unit) (f : WOFFeature) (h : f.id = 0) :
    IndexFeature client ptLookup hashGeom lastmod execResult f = .ok [] := by
  unfold IndexFeature
  rw [if_pos h]

/-- C10 witness: a zero-id feature with an unrecognized geometry type, no
repo, failing placetype and hash oracles and a failing store still
reports success with no write. -/
theorem indexFeature_zero_id_skipped_witness :
    IndexFeature ⟨"", false, false⟩
      (fun _ => .error (Err.placetypeErr "no table"))
      (fun _ => .error (Err.hashErr "bad")) "t0"
      (.error (Err.storeErr "down"))
      ⟨0, "Weird", "", [], [], none, none, none, none, "", none, none,
        false, false, "", none, [], ""⟩ = .ok [] :=
  indexFeature_zero_id_skipped _ _ _ _ _ _ rfl

end Pgis
